import Mathlib

/-!
Shallow embedding of `vms/platformvm/metrics.go` (package `platformvm`):
the acceptance-accounting dispatcher.  The metric set owns two gauges,
five block counters and nine transaction counters; `AcceptBlock` and
`AcceptTx` classify an accepted artifact by its concrete identity and
increment the matching counter; `Initialize` constructs and registers
the metrics.

Counters are modelled as `Nat` (prometheus counters are monotone adds
starting at 0); gauge values, never touched by this unit, are carried
as `Int`.  The Go type switches over concrete pointer types become
matches over closed inductives, each with an extra constructor standing
for any concrete type outside the known variants (the `default` arm of
the switch).
-/

/-- The nine known unsigned-transaction variants (the spec's
`TransactionVariant` enumeration). -/
inductive TxVariant
  | addDelegator
  | addSubnetValidator
  | addValidator
  | advanceTime
  | createChain
  | createSubnet
  | exportTx
  | importTx
  | rewardValidator
deriving DecidableEq, Fintype

/-- The five known block variants (the spec's `BlockVariant`
enumeration). -/
inductive BlockVariant
  | abort
  | atomic
  | commit
  | proposal
  | standard
deriving DecidableEq, Fintype

/-- Concrete identity of an unsigned transaction payload: one of the nine
types `AcceptTx` switches on, or (`UnknownUnsignedTx`) any other concrete
type, which falls to the switch's `default` arm. -/
inductive UnsignedTx
  | VerifiableUnsignedAddDelegatorTx
  | VerifiableUnsignedAddSubnetValidatorTx
  | VerifiableUnsignedAddValidatorTx
  | VerifiableUnsignedAdvanceTimeTx
  | VerifiableUnsignedCreateChainTx
  | VerifiableUnsignedCreateSubnetTx
  | VerifiableUnsignedImportTx
  | VerifiableUnsignedExportTx
  | VerifiableUnsignedRewardValidatorTx
  | UnknownUnsignedTx (tag : Nat)
deriving DecidableEq

/-- `transactions.SignedTx`: a signed wrapper; `AcceptTx` classifies on the
`UnsignedTx` field only. -/
structure SignedTx where
  UnsignedTx : UnsignedTx
deriving DecidableEq

/-- Concrete identity of a `snowman.Block` as seen by `AcceptBlock`'s type
switch: the five platformvm block types (with their embedded transactions),
or (`UnknownBlock`) any other concrete type, which falls to the `default`
arm. -/
inductive Block
  | AbortBlock
  | AtomicBlock (Tx : SignedTx)
  | CommitBlock
  | ProposalBlock (Tx : SignedTx)
  | StandardBlock (Txs : List SignedTx)
  | UnknownBlock (tag : Nat)
deriving DecidableEq

/-- The `metrics` struct: gauge values and counter values. -/
structure Metrics where
  percentConnected : Int
  totalStake : Int
  numAbortBlocks : Nat
  numAtomicBlocks : Nat
  numCommitBlocks : Nat
  numProposalBlocks : Nat
  numStandardBlocks : Nat
  numAddDelegatorTxs : Nat
  numAddSubnetValidatorTxs : Nat
  numAddValidatorTxs : Nat
  numAdvanceTimeTxs : Nat
  numCreateChainTxs : Nat
  numCreateSubnetTxs : Nat
  numExportTxs : Nat
  numImportTxs : Nat
  numRewardValidatorTxs : Nat
deriving DecidableEq

/-- The two classification errors: `errUnknownBlockType` and
`errUnknownTxType`. -/
inductive MetricsErr
  | unknownBlockType
  | unknownTxType
deriving DecidableEq

/-- `(m *metrics) AcceptTx(tx *transactions.SignedTx) error`: switch on the
concrete type of `tx.UnsignedTx`, increment the matching counter; on the
`default` arm return `errUnknownTxType`.  The resulting state is returned
alongside the error. -/
def Metrics.AcceptTx (m : Metrics) (tx : SignedTx) : Metrics × Option MetricsErr :=
  match tx.UnsignedTx with
  | .VerifiableUnsignedAddDelegatorTx =>
      ({ m with numAddDelegatorTxs := m.numAddDelegatorTxs + 1 }, none)
  | .VerifiableUnsignedAddSubnetValidatorTx =>
      ({ m with numAddSubnetValidatorTxs := m.numAddSubnetValidatorTxs + 1 }, none)
  | .VerifiableUnsignedAddValidatorTx =>
      ({ m with numAddValidatorTxs := m.numAddValidatorTxs + 1 }, none)
  | .VerifiableUnsignedAdvanceTimeTx =>
      ({ m with numAdvanceTimeTxs := m.numAdvanceTimeTxs + 1 }, none)
  | .VerifiableUnsignedCreateChainTx =>
      ({ m with numCreateChainTxs := m.numCreateChainTxs + 1 }, none)
  | .VerifiableUnsignedCreateSubnetTx =>
      ({ m with numCreateSubnetTxs := m.numCreateSubnetTxs + 1 }, none)
  | .VerifiableUnsignedImportTx =>
      ({ m with numImportTxs := m.numImportTxs + 1 }, none)
  | .VerifiableUnsignedExportTx =>
      ({ m with numExportTxs := m.numExportTxs + 1 }, none)
  | .VerifiableUnsignedRewardValidatorTx =>
      ({ m with numRewardValidatorTxs := m.numRewardValidatorTxs + 1 }, none)
  | .UnknownUnsignedTx _ => (m, some .unknownTxType)

/-- The `for _, tx := range b.Txs` loop of the `*StandardBlock` arm:
dispatch each transaction in order via `AcceptTx`; on the first non-nil
error stop and return it. -/
def Metrics.acceptTxList (m : Metrics) : List SignedTx → Metrics × Option MetricsErr
  | [] => (m, none)
  | tx :: rest =>
    let r := m.AcceptTx tx
    match r.2 with
    | none => r.1.acceptTxList rest
    | some e => (r.1, some e)

/-- `(m *metrics) AcceptBlock(b snowman.Block) error`: switch on the
concrete type of `b`; increment the matching block counter, then dispatch
the embedded transactions; on the `default` arm return
`errUnknownBlockType`. -/
def Metrics.AcceptBlock (m : Metrics) (b : Block) : Metrics × Option MetricsErr :=
  match b with
  | .AbortBlock =>
      ({ m with numAbortBlocks := m.numAbortBlocks + 1 }, none)
  | .AtomicBlock tx =>
      ({ m with numAtomicBlocks := m.numAtomicBlocks + 1 }).AcceptTx tx
  | .CommitBlock =>
      ({ m with numCommitBlocks := m.numCommitBlocks + 1 }, none)
  | .ProposalBlock tx =>
      ({ m with numProposalBlocks := m.numProposalBlocks + 1 }).AcceptTx tx
  | .StandardBlock txs =>
      ({ m with numStandardBlocks := m.numStandardBlocks + 1 }).acceptTxList txs
  | .UnknownBlock _ => (m, some .unknownBlockType)

/-- A `prometheus.CounterOpts`/`GaugeOpts` descriptor: namespace, name and
help text. -/
structure MetricOpts where
  Namespace : String
  Name : String
  Help : String
deriving DecidableEq

/-- `newBlockMetrics(namespace, name string)`. -/
def newBlockMetrics (ns name : String) : MetricOpts :=
  { Namespace := ns
    Name := name ++ "_blks_accepted"
    Help := "Number of " ++ name ++ " blocks accepted" }

/-- `newTxMetrics(namespace, name string)`. -/
def newTxMetrics (ns name : String) : MetricOpts :=
  { Namespace := ns
    Name := name ++ "_txs_accepted"
    Help := "Number of " ++ name ++ " transactions. accepted" }

/-- The sixteen metric descriptors constructed by `Initialize`, in the
order they are constructed and registered: the two gauges, the five block
counters, the nine transaction counters. -/
def initializeMetrics (ns : String) : List MetricOpts :=
  [ { Namespace := ns, Name := "percent_connected", Help := "Percent of connected stake" }
  , { Namespace := ns, Name := "total_staked", Help := "Total amount of AVAX staked" }
  , newBlockMetrics ns "abort"
  , newBlockMetrics ns "atomic"
  , newBlockMetrics ns "commit"
  , newBlockMetrics ns "proposal"
  , newBlockMetrics ns "standard"
  , newTxMetrics ns "add_delegator"
  , newTxMetrics ns "add_subnet_validator"
  , newTxMetrics ns "add_validator"
  , newTxMetrics ns "advance_time"
  , newTxMetrics ns "create_chain"
  , newTxMetrics ns "create_subnet"
  , newTxMetrics ns "export"
  , newTxMetrics ns "import"
  , newTxMetrics ns "reward_validator" ]

/-- Modelled from the spec: `wrappers.Errs` (its source is not part of this
unit) — a result-collecting accumulator that, given the outcome of every
attempted registration, merges all failures into one returned error that
references every failed registration, instead of short-circuiting on the
first.  `none` means no failure occurred. -/
def errsCollect (results : List (Option String)) : Option (List String) :=
  let fails := results.filterMap id
  if fails = [] then none else some fails

/-- `(m *metrics) Initialize(namespace, registerer)`: construct the sixteen
metrics, then attempt every registration (all `Register` calls are
performed before the error accumulator inspects them) and fold the
outcomes, together with the API-interceptor construction error `apiErr`,
through the accumulator.  The registerer is modelled as a function from a
descriptor to an optional failure message; the API interceptor is opaque
to this unit (per the spec) and contributes only its error.  Returns the
list of descriptors registered and the aggregated error. -/
def Initialize (ns : String) (apiErr : Option String)
    (register : MetricOpts → Option String) :
    List MetricOpts × Option (List String) :=
  (initializeMetrics ns,
   errsCollect (apiErr :: (initializeMetrics ns).map register))

/-- Modelled from the spec: the metric-construction backend emits the
namespace-prefixed metric name for a descriptor. -/
def fqName (o : MetricOpts) : String :=
  o.Namespace ++ "_" ++ o.Name

/-! ### Specification-side helpers -/

/-- Classification of an unsigned payload into the nine known variants. -/
def txVariant : UnsignedTx → Option TxVariant
  | .VerifiableUnsignedAddDelegatorTx => some .addDelegator
  | .VerifiableUnsignedAddSubnetValidatorTx => some .addSubnetValidator
  | .VerifiableUnsignedAddValidatorTx => some .addValidator
  | .VerifiableUnsignedAdvanceTimeTx => some .advanceTime
  | .VerifiableUnsignedCreateChainTx => some .createChain
  | .VerifiableUnsignedCreateSubnetTx => some .createSubnet
  | .VerifiableUnsignedImportTx => some .importTx
  | .VerifiableUnsignedExportTx => some .exportTx
  | .VerifiableUnsignedRewardValidatorTx => some .rewardValidator
  | .UnknownUnsignedTx _ => none

/-- Whether a signed transaction's payload is one of the nine known
variants. -/
def isKnownTx (tx : SignedTx) : Bool :=
  (txVariant tx.UnsignedTx).isSome

/-- The counter of one transaction variant. -/
def txCounter (v : TxVariant) (m : Metrics) : Nat :=
  match v with
  | .addDelegator => m.numAddDelegatorTxs
  | .addSubnetValidator => m.numAddSubnetValidatorTxs
  | .addValidator => m.numAddValidatorTxs
  | .advanceTime => m.numAdvanceTimeTxs
  | .createChain => m.numCreateChainTxs
  | .createSubnet => m.numCreateSubnetTxs
  | .exportTx => m.numExportTxs
  | .importTx => m.numImportTxs
  | .rewardValidator => m.numRewardValidatorTxs

/-- The counter of one block variant. -/
def blockCounter (bv : BlockVariant) (m : Metrics) : Nat :=
  match bv with
  | .abort => m.numAbortBlocks
  | .atomic => m.numAtomicBlocks
  | .commit => m.numCommitBlocks
  | .proposal => m.numProposalBlocks
  | .standard => m.numStandardBlocks

/-- The two gauge values. -/
def gauges (m : Metrics) : Int × Int :=
  (m.percentConnected, m.totalStake)

/-- How many transactions of a list classify as a given variant. -/
def countTxVariant (v : TxVariant) (txs : List SignedTx) : Nat :=
  txs.countP (fun tx => txVariant tx.UnsignedTx = some v)

/-- A metric state with every counter and gauge at zero (counters start
at 0). -/
def emptyMetrics : Metrics :=
  ⟨0, 0, 0, 0, 0, 0, 0, 0, 0, 0, 0, 0, 0, 0, 0, 0⟩

/-! ### Helper lemmas about `AcceptTx` -/

theorem acceptTx_err (m : Metrics) (tx : SignedTx) :
    (m.AcceptTx tx).2 =
      (if isKnownTx tx then none else some MetricsErr.unknownTxType) := by
  obtain ⟨u⟩ := tx
  cases u <;> simp [Metrics.AcceptTx, isKnownTx, txVariant]

theorem acceptTx_txCounter (m : Metrics) (tx : SignedTx) (v : TxVariant) :
    txCounter v (m.AcceptTx tx).1 =
      txCounter v m + (if txVariant tx.UnsignedTx = some v then 1 else 0) := by
  obtain ⟨u⟩ := tx
  cases u <;> cases v <;> simp [Metrics.AcceptTx, txCounter, txVariant]

theorem acceptTx_blockCounter (m : Metrics) (tx : SignedTx) (bv : BlockVariant) :
    blockCounter bv (m.AcceptTx tx).1 = blockCounter bv m := by
  obtain ⟨u⟩ := tx
  cases u <;> cases bv <;> simp [Metrics.AcceptTx, blockCounter]

theorem acceptTx_gauges (m : Metrics) (tx : SignedTx) :
    gauges (m.AcceptTx tx).1 = gauges m := by
  obtain ⟨u⟩ := tx
  cases u <;> simp [Metrics.AcceptTx, gauges]

theorem acceptTx_unknown_state (m : Metrics) (tx : SignedTx)
    (h : isKnownTx tx = false) : (m.AcceptTx tx).1 = m := by
  obtain ⟨u⟩ := tx
  cases u <;> simp_all [Metrics.AcceptTx, isKnownTx, txVariant]

/-! ### Helper lemmas about the `StandardBlock` transaction loop -/

theorem acceptTxList_cons_known (m : Metrics) (t : SignedTx) (ts : List SignedTx)
    (h : isKnownTx t = true) :
    m.acceptTxList (t :: ts) = ((m.AcceptTx t).1).acceptTxList ts := by
  have he := acceptTx_err m t
  rw [h] at he
  simp [Metrics.acceptTxList, he]

theorem acceptTxList_cons_unknown (m : Metrics) (t : SignedTx) (ts : List SignedTx)
    (h : isKnownTx t = false) :
    m.acceptTxList (t :: ts) = (m, some MetricsErr.unknownTxType) := by
  have he := acceptTx_err m t
  rw [h] at he
  simp [Metrics.acceptTxList, he, acceptTx_unknown_state m t h]

theorem acceptTxList_err (m : Metrics) (txs : List SignedTx) :
    (m.acceptTxList txs).2 =
      (if txs.all isKnownTx then none else some MetricsErr.unknownTxType) := by
  induction txs generalizing m with
  | nil => simp [Metrics.acceptTxList]
  | cons t ts ih =>
    by_cases h : isKnownTx t
    · rw [acceptTxList_cons_known m t ts h, ih]
      simp [h]
    · rw [acceptTxList_cons_unknown m t ts (by simpa using h)]
      simp [h]

theorem acceptTxList_txCounter (m : Metrics) (txs : List SignedTx) (v : TxVariant) :
    txCounter v (m.acceptTxList txs).1 =
      txCounter v m + countTxVariant v (txs.takeWhile isKnownTx) := by
  induction txs generalizing m with
  | nil => simp [Metrics.acceptTxList, countTxVariant]
  | cons t ts ih =>
    by_cases h : isKnownTx t
    · rw [acceptTxList_cons_known m t ts h, ih, acceptTx_txCounter]
      rw [List.takeWhile_cons_of_pos h]
      simp [countTxVariant, List.countP_cons]
      omega
    · rw [acceptTxList_cons_unknown m t ts (by simpa using h)]
      rw [List.takeWhile_cons_of_neg (by simpa using h)]
      simp [countTxVariant]

theorem acceptTxList_blockCounter (m : Metrics) (txs : List SignedTx)
    (bv : BlockVariant) :
    blockCounter bv (m.acceptTxList txs).1 = blockCounter bv m := by
  induction txs generalizing m with
  | nil => simp [Metrics.acceptTxList]
  | cons t ts ih =>
    by_cases h : isKnownTx t
    · rw [acceptTxList_cons_known m t ts h, ih, acceptTx_blockCounter]
    · rw [acceptTxList_cons_unknown m t ts (by simpa using h)]

theorem acceptTxList_gauges (m : Metrics) (txs : List SignedTx) :
    gauges (m.acceptTxList txs).1 = gauges m := by
  induction txs generalizing m with
  | nil => simp [Metrics.acceptTxList]
  | cons t ts ih =>
    by_cases h : isKnownTx t
    · rw [acceptTxList_cons_known m t ts h, ih, acceptTx_gauges]
    · rw [acceptTxList_cons_unknown m t ts (by simpa using h)]

/-! ### Claim theorems: block and transaction dispatch -/

/-- C4: for every block value whose identity is outside the five known
variants, `AcceptBlock` returns the "unknown block type" error and leaves
the metric state (every counter and gauge) unchanged. -/
theorem acceptBlock_unknown_spec (m : Metrics) (tag : Nat) :
    m.AcceptBlock (Block.UnknownBlock tag) = (m, some MetricsErr.unknownBlockType) :=
  rfl

/-- C5: for every signed transaction whose unsigned payload is outside the
nine known variants, `AcceptTx` returns the "unknown transaction type"
error and leaves the metric state (every counter and gauge) unchanged. -/
theorem acceptTx_unknown_spec (m : Metrics) (tag : Nat) :
    m.AcceptTx ⟨UnsignedTx.UnknownUnsignedTx tag⟩ = (m, some MetricsErr.unknownTxType) :=
  rfl

/-- C7: for every Abort or Commit block, `AcceptBlock` returns nil and
increments exactly the matching block counter by 1: every other block
counter, every transaction counter and both gauges are unchanged. -/
theorem acceptBlock_zero_tx_spec (m : Metrics) :
    ((m.AcceptBlock Block.AbortBlock).2 = none ∧
     (∀ bv, blockCounter bv (m.AcceptBlock Block.AbortBlock).1 =
        blockCounter bv m + (if bv = BlockVariant.abort then 1 else 0)) ∧
     (∀ v, txCounter v (m.AcceptBlock Block.AbortBlock).1 = txCounter v m) ∧
     gauges (m.AcceptBlock Block.AbortBlock).1 = gauges m) ∧
    ((m.AcceptBlock Block.CommitBlock).2 = none ∧
     (∀ bv, blockCounter bv (m.AcceptBlock Block.CommitBlock).1 =
        blockCounter bv m + (if bv = BlockVariant.commit then 1 else 0)) ∧
     (∀ v, txCounter v (m.AcceptBlock Block.CommitBlock).1 = txCounter v m) ∧
     gauges (m.AcceptBlock Block.CommitBlock).1 = gauges m) := by
  refine ⟨⟨rfl, fun bv => ?_, fun v => ?_, rfl⟩, ⟨rfl, fun bv => ?_, fun v => ?_, rfl⟩⟩ <;>
    first
      | (cases bv <;> simp [Metrics.AcceptBlock, blockCounter])
      | (cases v <;> simp [Metrics.AcceptBlock, txCounter])

/-- C6: for every Atomic or Proposal block, `AcceptBlock` increments the
matching block counter by 1 (and no other block counter), dispatches the
single embedded transaction and returns that dispatch's error unchanged:
nil exactly when the payload matches a known variant, in which case
exactly the one transaction counter of that variant is incremented by 1;
gauges are unchanged. -/
theorem acceptBlock_single_tx_spec (m : Metrics) (tx : SignedTx) :
    ((∀ bv, blockCounter bv (m.AcceptBlock (Block.AtomicBlock tx)).1 =
        blockCounter bv m + (if bv = BlockVariant.atomic then 1 else 0)) ∧
     (∀ v, txCounter v (m.AcceptBlock (Block.AtomicBlock tx)).1 =
        txCounter v m + (if txVariant tx.UnsignedTx = some v then 1 else 0)) ∧
     (m.AcceptBlock (Block.AtomicBlock tx)).2 = (m.AcceptTx tx).2 ∧
     (m.AcceptBlock (Block.AtomicBlock tx)).2 =
        (if isKnownTx tx then none else some MetricsErr.unknownTxType) ∧
     gauges (m.AcceptBlock (Block.AtomicBlock tx)).1 = gauges m) ∧
    ((∀ bv, blockCounter bv (m.AcceptBlock (Block.ProposalBlock tx)).1 =
        blockCounter bv m + (if bv = BlockVariant.proposal then 1 else 0)) ∧
     (∀ v, txCounter v (m.AcceptBlock (Block.ProposalBlock tx)).1 =
        txCounter v m + (if txVariant tx.UnsignedTx = some v then 1 else 0)) ∧
     (m.AcceptBlock (Block.ProposalBlock tx)).2 = (m.AcceptTx tx).2 ∧
     (m.AcceptBlock (Block.ProposalBlock tx)).2 =
        (if isKnownTx tx then none else some MetricsErr.unknownTxType) ∧
     gauges (m.AcceptBlock (Block.ProposalBlock tx)).1 = gauges m) := by
  obtain ⟨u⟩ := tx
  refine ⟨⟨fun bv => ?_, fun v => ?_, ?_, ?_, ?_⟩,
          ⟨fun bv => ?_, fun v => ?_, ?_, ?_, ?_⟩⟩ <;>
    first
      | (cases u <;> cases bv <;>
          simp [Metrics.AcceptBlock, Metrics.AcceptTx, blockCounter])
      | (cases u <;> cases v <;>
          simp [Metrics.AcceptBlock, Metrics.AcceptTx, txCounter, txVariant])
      | (cases u <;>
          simp [Metrics.AcceptBlock, Metrics.AcceptTx, gauges, isKnownTx, txVariant])

/-- C3: for every Standard block with any list of embedded transactions,
`AcceptBlock` increments the standard-block counter by exactly 1 (and no
other block counter), increments each transaction counter by the number
of embedded transactions of that variant within the longest classifiable
prefix (dispatch in sequence order stops at the first transaction that
fails classification, so later transactions are not counted), and returns
nil when every transaction classifies, otherwise the first classification
error. -/
theorem acceptBlock_standard_spec (m : Metrics) (txs : List SignedTx) :
    (∀ bv, blockCounter bv (m.AcceptBlock (Block.StandardBlock txs)).1 =
        blockCounter bv m + (if bv = BlockVariant.standard then 1 else 0)) ∧
    (∀ v, txCounter v (m.AcceptBlock (Block.StandardBlock txs)).1 =
        txCounter v m + countTxVariant v (txs.takeWhile isKnownTx)) ∧
    (m.AcceptBlock (Block.StandardBlock txs)).2 =
      (if txs.all isKnownTx then none else some MetricsErr.unknownTxType) := by
  refine ⟨fun bv => ?_, fun v => ?_, ?_⟩
  · show blockCounter bv (Metrics.acceptTxList _ txs).1 = _
    rw [acceptTxList_blockCounter]
    cases bv <;> simp [blockCounter]
  · show txCounter v (Metrics.acceptTxList _ txs).1 = _
    rw [acceptTxList_txCounter]
    cases v <;> simp [txCounter]
  · show (Metrics.acceptTxList _ txs).2 = _
    rw [acceptTxList_err]

/-- C10: for every input, `AcceptTx` modifies no block counter and no
gauge; when the payload classifies as a known variant it returns nil and
increments exactly the one matching transaction counter by 1; otherwise
it returns the "unknown transaction type" error and changes nothing. -/
theorem acceptTx_frame_spec (m : Metrics) (tx : SignedTx) :
    (∀ bv, blockCounter bv (m.AcceptTx tx).1 = blockCounter bv m) ∧
    gauges (m.AcceptTx tx).1 = gauges m ∧
    (match txVariant tx.UnsignedTx with
     | some v =>
        (m.AcceptTx tx).2 = none ∧
        ∀ w, txCounter w (m.AcceptTx tx).1 =
          txCounter w m + (if w = v then 1 else 0)
     | none =>
        (m.AcceptTx tx).2 = some MetricsErr.unknownTxType ∧
        (m.AcceptTx tx).1 = m) := by
  refine ⟨acceptTx_blockCounter m tx, acceptTx_gauges m tx, ?_⟩
  obtain ⟨u⟩ := tx
  cases u <;> simp [txVariant, Metrics.AcceptTx] <;>
    intro w <;> cases w <;> simp [txCounter]

theorem takeWhile_append_of_all {α : Type} (p : α → Bool) (l₁ l₂ : List α)
    (h : l₁.all p = true) :
    (l₁ ++ l₂).takeWhile p = l₁ ++ l₂.takeWhile p := by
  induction l₁ with
  | nil => simp
  | cons a as ih =>
    rw [List.all_cons, Bool.and_eq_true] at h
    rw [List.cons_append, List.takeWhile_cons_of_pos h.1, ih h.2, List.cons_append]

theorem all_append_cons_false {α : Type} (p : α → Bool) (l₁ : List α) (a : α)
    (l₂ : List α) (h : p a = false) :
    (l₁ ++ a :: l₂).all p = false := by
  induction l₁ with
  | nil => simp [h]
  | cons b bs ih => simp [List.all_cons, ih]

/-- C9: when `AcceptBlock` returns a non-nil error because an embedded
transaction fails classification, the counter increments already performed
are retained, not rolled back: the block counter of the Atomic/Proposal/
Standard variant is still incremented by 1, and for a Standard block whose
first failing transaction follows a classifiable prefix, each transaction
counter keeps the increments from that prefix. -/
theorem acceptBlock_retains_increments (m : Metrics) (tag : Nat)
    (good rest : List SignedTx) (hgood : good.all isKnownTx = true) :
    ((m.AcceptBlock (Block.AtomicBlock ⟨UnsignedTx.UnknownUnsignedTx tag⟩)).2 =
        some MetricsErr.unknownTxType ∧
     (m.AcceptBlock (Block.AtomicBlock ⟨UnsignedTx.UnknownUnsignedTx tag⟩)).1.numAtomicBlocks =
        m.numAtomicBlocks + 1) ∧
    ((m.AcceptBlock (Block.ProposalBlock ⟨UnsignedTx.UnknownUnsignedTx tag⟩)).2 =
        some MetricsErr.unknownTxType ∧
     (m.AcceptBlock (Block.ProposalBlock ⟨UnsignedTx.UnknownUnsignedTx tag⟩)).1.numProposalBlocks =
        m.numProposalBlocks + 1) ∧
    ((m.AcceptBlock (Block.StandardBlock
        (good ++ ⟨UnsignedTx.UnknownUnsignedTx tag⟩ :: rest))).2 =
        some MetricsErr.unknownTxType ∧
     (m.AcceptBlock (Block.StandardBlock
        (good ++ ⟨UnsignedTx.UnknownUnsignedTx tag⟩ :: rest))).1.numStandardBlocks =
        m.numStandardBlocks + 1 ∧
     ∀ v, txCounter v (m.AcceptBlock (Block.StandardBlock
        (good ++ ⟨UnsignedTx.UnknownUnsignedTx tag⟩ :: rest))).1 =
        txCounter v m + countTxVariant v good) := by
  have hbad : isKnownTx ⟨UnsignedTx.UnknownUnsignedTx tag⟩ = false := rfl
  have htake : ((good ++ ⟨UnsignedTx.UnknownUnsignedTx tag⟩ :: rest).takeWhile isKnownTx) = good := by
    rw [takeWhile_append_of_all isKnownTx good _ hgood,
        List.takeWhile_cons_of_neg (by simp [hbad]), List.append_nil]
  have hall : ((good ++ ⟨UnsignedTx.UnknownUnsignedTx tag⟩ :: rest).all isKnownTx) = false :=
    all_append_cons_false isKnownTx good _ rest hbad
  refine ⟨⟨rfl, rfl⟩, ⟨rfl, rfl⟩, ?_, ?_, fun v => ?_⟩
  · show (Metrics.acceptTxList _ _).2 = _
    rw [acceptTxList_err, hall]
    rfl
  · show (Metrics.acceptTxList _ _).1.numStandardBlocks = _
    have := acceptTxList_blockCounter
      { m with numStandardBlocks := m.numStandardBlocks + 1 }
      (good ++ ⟨UnsignedTx.UnknownUnsignedTx tag⟩ :: rest) BlockVariant.standard
    simpa [blockCounter] using this
  · show txCounter v (Metrics.acceptTxList _ _).1 = _
    rw [acceptTxList_txCounter, htake]
    cases v <;> simp [txCounter]

/-- Witness for C9 at a concrete input: one classifiable transaction
before the failing one. -/
theorem acceptBlock_retains_increments_wit :
    ([⟨UnsignedTx.VerifiableUnsignedAddValidatorTx⟩] : List SignedTx).all isKnownTx = true ∧
    ((emptyMetrics.AcceptBlock (Block.StandardBlock
        ([⟨UnsignedTx.VerifiableUnsignedAddValidatorTx⟩] ++
          ⟨UnsignedTx.UnknownUnsignedTx 0⟩ :: []))).2 =
        some MetricsErr.unknownTxType ∧
     (emptyMetrics.AcceptBlock (Block.StandardBlock
        ([⟨UnsignedTx.VerifiableUnsignedAddValidatorTx⟩] ++
          ⟨UnsignedTx.UnknownUnsignedTx 0⟩ :: []))).1.numStandardBlocks =
        emptyMetrics.numStandardBlocks + 1 ∧
     ∀ v, txCounter v (emptyMetrics.AcceptBlock (Block.StandardBlock
        ([⟨UnsignedTx.VerifiableUnsignedAddValidatorTx⟩] ++
          ⟨UnsignedTx.UnknownUnsignedTx 0⟩ :: []))).1 =
        txCounter v emptyMetrics +
          countTxVariant v [⟨UnsignedTx.VerifiableUnsignedAddValidatorTx⟩]) :=
  ⟨by decide,
   (acceptBlock_retains_increments emptyMetrics 0
      [⟨UnsignedTx.VerifiableUnsignedAddValidatorTx⟩] [] (by decide)).2.2⟩

/-! ### Claim theorems: initialization and registration -/

/-- C2: every call to `Initialize` registers exactly 16 metrics with the
registerer — the 2 gauges, the 5 block counters and the 9 transaction
counters, in that order, and no others. -/
theorem initialize_registers_sixteen (ns : String) (apiErr : Option String)
    (register : MetricOpts → Option String) :
    ( Initialize ns apiErr register).1.map MetricOpts.Name =
      ["percent_connected", "total_staked",
       "abort_blks_accepted", "atomic_blks_accepted", "commit_blks_accepted",
       "proposal_blks_accepted", "standard_blks_accepted",
       "add_delegator_txs_accepted", "add_subnet_validator_txs_accepted",
       "add_validator_txs_accepted", "advance_time_txs_accepted",
       "create_chain_txs_accepted", "create_subnet_txs_accepted",
       "export_txs_accepted", "import_txs_accepted",
       "reward_validator_txs_accepted"] ∧
    ( Initialize ns apiErr register).1.length = 16 :=
  ⟨rfl, rfl⟩

/-- C8: the metrics constructed by `Initialize` carry exactly the
namespace-prefixed names `percent_connected`, `total_staked`,
`<kind>_blks_accepted` for the five block kinds and `<kind>_txs_accepted`
for the nine transaction kinds, with no name collisions. -/
theorem initialize_metric_names_spec (ns : String) :
    (initializeMetrics ns).map fqName =
      (["percent_connected", "total_staked",
        "abort_blks_accepted", "atomic_blks_accepted", "commit_blks_accepted",
        "proposal_blks_accepted", "standard_blks_accepted",
        "add_delegator_txs_accepted", "add_subnet_validator_txs_accepted",
        "add_validator_txs_accepted", "advance_time_txs_accepted",
        "create_chain_txs_accepted", "create_subnet_txs_accepted",
        "export_txs_accepted", "import_txs_accepted",
        "reward_validator_txs_accepted"].map (fun s => ns ++ "_" ++ s)) ∧
    ((initializeMetrics ns).map fqName).Nodup := by
  have hinj : Function.Injective (fun s => ns ++ "_" ++ s : String → String) := by
    intro a b h
    have h2 := congrArg String.data h
    simp only [String.data_append] at h2
    exact String.ext (List.append_cancel_left h2)
  have heq : (initializeMetrics ns).map fqName =
      (["percent_connected", "total_staked",
        "abort_blks_accepted", "atomic_blks_accepted", "commit_blks_accepted",
        "proposal_blks_accepted", "standard_blks_accepted",
        "add_delegator_txs_accepted", "add_subnet_validator_txs_accepted",
        "add_validator_txs_accepted", "advance_time_txs_accepted",
        "create_chain_txs_accepted", "create_subnet_txs_accepted",
        "export_txs_accepted", "import_txs_accepted",
        "reward_validator_txs_accepted"].map (fun s => ns ++ "_" ++ s)) := rfl
  refine ⟨heq, ?_⟩
  rw [heq]
  exact List.Nodup.map hinj (by decide)

/-- C1: when one or more registrations fail, every registration is still
attempted (the accumulator receives the outcome of every one of the 16
metrics) and `Initialize` returns a single non-nil error that references
every failed registration, not only the first. -/
theorem initialize_collects_failures (ns : String) (apiErr : Option String)
    (register : MetricOpts → Option String)
    (h : ∃ o ∈ initializeMetrics ns, register o ≠ none) :
    ∃ errs, ( Initialize ns apiErr register).2 = some errs ∧
      ∀ o ∈ initializeMetrics ns, ∀ e, register o = some e → e ∈ errs := by
  obtain ⟨o₀, ho₀, hreg⟩ := h
  obtain ⟨e₀, he₀⟩ := Option.ne_none_iff_exists'.mp hreg
  have hmem : e₀ ∈ (apiErr :: (initializeMetrics ns).map register).filterMap id := by
    rw [List.mem_filterMap]
    refine ⟨some e₀, List.mem_cons_of_mem _ ?_, rfl⟩
    exact he₀ ▸ List.mem_map_of_mem register ho₀
  refine ⟨(apiErr :: (initializeMetrics ns).map register).filterMap id, ?_, ?_⟩
  · show errsCollect _ = _
    rw [errsCollect, if_neg (List.ne_nil_of_mem hmem)]
  · intro o ho e he
    rw [List.mem_filterMap]
    refine ⟨some e, List.mem_cons_of_mem _ ?_, rfl⟩
    exact he ▸ List.mem_map_of_mem register ho

/-- A registerer that fails on two of the sixteen metrics, for the C1
witness. -/
def failTwoRegister (o : MetricOpts) : Option String :=
  if o.Name = "total_staked" ∨ o.Name = "abort_blks_accepted" then
    some ("register " ++ o.Name)
  else none

/-- Witness for C1 at a concrete input: the registerer fails on the
`total_staked` gauge and the `abort` block counter. -/
theorem initialize_collects_failures_wit :
    (∃ o ∈ initializeMetrics "platform", failTwoRegister o ≠ none) ∧
    ∃ errs, ( Initialize "platform" none failTwoRegister).2 = some errs ∧
      ∀ o ∈ initializeMetrics "platform", ∀ e, failTwoRegister o = some e → e ∈ errs :=
  ⟨by decide, initialize_collects_failures "platform" none failTwoRegister (by decide)⟩
